import Mathlib

/-!
Verification of the ART optimized stack map codec (runtime/stack_map.cc).

The development shallowly embeds the variable-width integer codec
(LoadAt / StoreAt), the safepoint-record size computation and the dex
register map resolution, and proves the testable properties claimed for
them. A memory region is modelled as a function from byte index to byte
value; all loads and stores are little-endian and unaligned, matching the
MemoryRegion::LoadUnaligned / StoreUnaligned primitives the code relies
on. Debug assertions (DCHECK) are modelled as separate precondition
predicates next to the release-mode semantics of each function.
-/

namespace ArtStackMap

/-- Modelled from the spec: the code relies on MemoryRegion (declared in
memory_region.h, outside stack_map.cc), "an explicit little-endian
unaligned-access abstraction over a raw byte buffer". A region is the
function carrying each byte index to the byte stored there. -/
abbrev MemoryRegion : Type := Nat → Nat

/-- Byte load, MemoryRegion::LoadUnaligned over uint8_t. -/
def MemoryRegion.loadU8 (region : MemoryRegion) (offset : Nat) : Nat :=
  region offset % 256

/-- Two-byte little-endian load, MemoryRegion::LoadUnaligned over uint16_t. -/
def MemoryRegion.loadU16 (region : MemoryRegion) (offset : Nat) : Nat :=
  MemoryRegion.loadU8 region offset + 256 * MemoryRegion.loadU8 region (offset + 1)

/-- Four-byte little-endian load, MemoryRegion::LoadUnaligned over uint32_t. -/
def MemoryRegion.loadU32 (region : MemoryRegion) (offset : Nat) : Nat :=
  MemoryRegion.loadU16 region offset + 65536 * MemoryRegion.loadU16 region (offset + 2)

/-- Byte store, MemoryRegion::StoreUnaligned over uint8_t; the value is
truncated to its low 8 bits by the uint8_t conversion. -/
def MemoryRegion.storeU8 (region : MemoryRegion) (offset value : Nat) : MemoryRegion :=
  fun i => if i = offset then value % 256 else region i

/-- Two-byte little-endian store, MemoryRegion::StoreUnaligned over uint16_t. -/
def MemoryRegion.storeU16 (region : MemoryRegion) (offset value : Nat) : MemoryRegion :=
  MemoryRegion.storeU8 (MemoryRegion.storeU8 region offset value) (offset + 1) (value / 256)

/-- Four-byte little-endian store, MemoryRegion::StoreUnaligned over uint32_t. -/
def MemoryRegion.storeU32 (region : MemoryRegion) (offset value : Nat) : MemoryRegion :=
  MemoryRegion.storeU16 (MemoryRegion.storeU16 region offset value) (offset + 2) (value / 65536)

/-- Low16Bits (utils.h, outside src): the low 16 bits of a 32-bit value. -/
def Low16Bits (value : Nat) : Nat := value % 65536

/-- High16Bits (utils.h, outside src): the high 16 bits of a 32-bit value. -/
def High16Bits (value : Nat) : Nat := value / 65536 % 65536

/-- LoadAt (stack_map.cc lines 55-89): loads number_of_bytes at offset and
assembles a uint32_t; if check_max is true, the maximum bit pattern of that
size decodes to uint32_t 0xFFFFFFFF (the C++ "return -1"). -/
def LoadAt (region : MemoryRegion) (number_of_bytes offset : Nat)
    (check_max : Bool) : Nat :=
  if number_of_bytes = 0 then
    0
  else if number_of_bytes = 1 then
    let value := MemoryRegion.loadU8 region offset
    if check_max = true ∧ value = 255 then 4294967295 else value
  else if number_of_bytes = 2 then
    let value := MemoryRegion.loadU16 region offset
    if check_max = true ∧ value = 65535 then 4294967295 else value
  else if number_of_bytes = 3 then
    let low := MemoryRegion.loadU16 region offset
    let high := MemoryRegion.loadU8 region (offset + 2)
    let value := high * 65536 + low
    if check_max = true ∧ value = 16777215 then 4294967295 else value
  else
    MemoryRegion.loadU32 region offset

/-- The DCHECKs guarding LoadAt: width 0 forbids check_max, and the final
branch requires the width to be exactly 4. -/
def LoadAtAsserts (number_of_bytes : Nat) (check_max : Bool) : Prop :=
  (number_of_bytes = 0 → check_max = false)
  ∧ (number_of_bytes ≠ 0 ∧ number_of_bytes ≠ 1 ∧ number_of_bytes ≠ 2 ∧
      number_of_bytes ≠ 3 → number_of_bytes = 4)

/-- StoreAt (stack_map.cc lines 91-105): stores the low number_of_bytes
bytes of value at offset; width 3 stores Low16Bits then High16Bits. -/
def StoreAt (region : MemoryRegion) (number_of_bytes offset value : Nat) :
    MemoryRegion :=
  if number_of_bytes = 0 then
    region
  else if number_of_bytes = 1 then
    MemoryRegion.storeU8 region offset value
  else if number_of_bytes = 2 then
    MemoryRegion.storeU16 region offset value
  else if number_of_bytes = 3 then
    MemoryRegion.storeU8 (MemoryRegion.storeU16 region offset (Low16Bits value))
      (offset + 2) (High16Bits value)
  else
    MemoryRegion.storeU32 region offset value

/-- The DCHECKs guarding StoreAt: width 0 requires the value to be 0, and
the final branch requires the width to be exactly 4. -/
def StoreAtAsserts (number_of_bytes value : Nat) : Prop :=
  (number_of_bytes = 0 → value = 0)
  ∧ (number_of_bytes ≠ 0 ∧ number_of_bytes ≠ 1 ∧ number_of_bytes ≠ 2 ∧
      number_of_bytes ≠ 3 → number_of_bytes = 4)

/-- Claim C1: for every width w in 0..4 and every value representable in w
bytes, excluding the all-ones sentinel pattern when sentinel checking is
enabled, StoreAt followed by LoadAt returns the value exactly. -/
theorem loadAt_storeAt_roundtrip (region : MemoryRegion)
    (w offset v : Nat) (check_max : Bool) (hw : w ≤ 4)
    (hv : v < 2 ^ (8 * w))
    (hcm : check_max = true → v ≠ 2 ^ (8 * w) - 1) :
    LoadAt (StoreAt region w offset v) w offset check_max = v := by
  interval_cases w
  · norm_num at hv
    simp [LoadAt, StoreAt]
    omega
  · norm_num at hv hcm
    cases check_max
    · simp [LoadAt, StoreAt, MemoryRegion.loadU8, MemoryRegion.storeU8]
      omega
    · have hne := hcm rfl
      simp [LoadAt, StoreAt, MemoryRegion.loadU8, MemoryRegion.storeU8]
      split_ifs <;> omega
  · norm_num at hv hcm
    cases check_max
    · simp [LoadAt, StoreAt, MemoryRegion.loadU8, MemoryRegion.loadU16,
        MemoryRegion.storeU8, MemoryRegion.storeU16]
      omega
    · have hne := hcm rfl
      simp [LoadAt, StoreAt, MemoryRegion.loadU8, MemoryRegion.loadU16,
        MemoryRegion.storeU8, MemoryRegion.storeU16]
      split_ifs <;> omega
  · norm_num at hv hcm
    cases check_max
    · simp [LoadAt, StoreAt, MemoryRegion.loadU8, MemoryRegion.loadU16,
        MemoryRegion.storeU8, MemoryRegion.storeU16, Low16Bits, High16Bits]
      omega
    · have hne := hcm rfl
      simp [LoadAt, StoreAt, MemoryRegion.loadU8, MemoryRegion.loadU16,
        MemoryRegion.storeU8, MemoryRegion.storeU16, Low16Bits, High16Bits]
      split_ifs <;> omega
  · norm_num at hv
    simp [LoadAt, StoreAt, MemoryRegion.loadU8, MemoryRegion.loadU16,
      MemoryRegion.loadU32, MemoryRegion.storeU8, MemoryRegion.storeU16,
      MemoryRegion.storeU32]
    split_ifs <;> omega

/-- Witness for C1 at width 3, value 300, check_max on. -/
theorem loadAt_storeAt_roundtrip_witness :
    (3 ≤ 4 ∧ 300 < 2 ^ (8 * 3) ∧ (true = true → 300 ≠ 2 ^ (8 * 3) - 1))
    ∧ LoadAt (StoreAt (fun _ => 0) 3 5 300) 3 5 true = 300 :=
  ⟨⟨by norm_num, by norm_num, by norm_num⟩,
   loadAt_storeAt_roundtrip (fun _ => 0) 3 5 300 true (by norm_num)
     (by norm_num) (by norm_num)⟩

/-- Claim C2: for width 1..4 under sentinel checking, a buffer holding the
all-ones pattern of that width decodes to the absent value 0xFFFFFFFF, and
storing the absent value writes that same all-ones pattern. -/
theorem loadAt_sentinel_allOnes (region region2 : MemoryRegion)
    (w offset : Nat) (hw1 : 1 ≤ w) (hw4 : w ≤ 4)
    (hones : ∀ i, offset ≤ i → i < offset + w → region i = 255) :
    LoadAt region w offset true = 4294967295
    ∧ (∀ i, offset ≤ i → i < offset + w →
        StoreAt region2 w offset 4294967295 i = 255) := by
  constructor
  · interval_cases w
    · have h0 := hones offset (Nat.le_refl _) (by omega)
      simp [LoadAt, MemoryRegion.loadU8, h0]
    · have h0 := hones offset (Nat.le_refl _) (by omega)
      have h1 := hones (offset + 1) (by omega) (by omega)
      simp [LoadAt, MemoryRegion.loadU8, MemoryRegion.loadU16, h0, h1]
    · have h0 := hones offset (Nat.le_refl _) (by omega)
      have h1 := hones (offset + 1) (by omega) (by omega)
      have h2 := hones (offset + 2) (by omega) (by omega)
      simp [LoadAt, MemoryRegion.loadU8, MemoryRegion.loadU16, h0, h1, h2]
    · have h0 := hones offset (Nat.le_refl _) (by omega)
      have h1 := hones (offset + 1) (by omega) (by omega)
      have h2 := hones (offset + 2) (by omega) (by omega)
      have h3 := hones (offset + 2 + 1) (by omega) (by omega)
      simp [LoadAt, MemoryRegion.loadU8, MemoryRegion.loadU16,
        MemoryRegion.loadU32, h0, h1, h2, h3]
  · intro i hi1 hi2
    interval_cases w <;>
      simp [StoreAt, MemoryRegion.storeU8, MemoryRegion.storeU16,
        MemoryRegion.storeU32, Low16Bits, High16Bits, ite_apply] <;>
      first
      | omega
      | (split_ifs <;> omega)

/-- Witness for C2 at width 2, offset 4. -/
theorem loadAt_sentinel_allOnes_witness :
    ((1 ≤ 2 ∧ 2 ≤ 4) ∧ (∀ i : Nat, 4 ≤ i → i < 4 + 2 → (255 : Nat) = 255))
    ∧ LoadAt (fun _ => 255) 2 4 true = 4294967295
    ∧ StoreAt (fun _ => 7) 2 4 4294967295 5 = 255 :=
  ⟨⟨⟨by norm_num, by norm_num⟩, fun _ _ _ => rfl⟩,
   (loadAt_sentinel_allOnes (fun _ => 255) (fun _ => 7) 2 4 (by norm_num)
      (by norm_num) (fun _ _ _ => rfl)).1,
   (loadAt_sentinel_allOnes (fun _ => 255) (fun _ => 7) 2 4 (by norm_num)
      (by norm_num) (fun _ _ _ => rfl)).2 5 (by norm_num) (by norm_num)⟩

/-- Claim C7: width-3 values are stored as a 2-byte little-endian low part
at the offset plus a 1-byte high part at offset + 2, exactly 3 bytes are
occupied, and every value below 2^24 round-trips exactly. -/
theorem width3_layout_roundtrip (region : MemoryRegion) (offset v : Nat)
    (hv : v < 16777216) :
    StoreAt region 3 offset v offset = v % 256
    ∧ StoreAt region 3 offset v (offset + 1) = v / 256 % 256
    ∧ StoreAt region 3 offset v (offset + 2) = v / 65536 % 256
    ∧ (∀ i, i < offset ∨ offset + 3 ≤ i → StoreAt region 3 offset v i = region i)
    ∧ LoadAt (StoreAt region 3 offset v) 3 offset false = v := by
  refine ⟨?_, ?_, ?_, ?_, ?_⟩
  · simp [StoreAt, MemoryRegion.storeU8, MemoryRegion.storeU16,
      Low16Bits, High16Bits, ite_apply] <;>
    first
    | omega
    | (split_ifs <;> omega)
  · simp [StoreAt, MemoryRegion.storeU8, MemoryRegion.storeU16,
      Low16Bits, High16Bits, ite_apply] <;>
    first
    | omega
    | (split_ifs <;> omega)
  · simp [StoreAt, MemoryRegion.storeU8, MemoryRegion.storeU16,
      Low16Bits, High16Bits, ite_apply] <;>
    first
    | omega
    | (split_ifs <;> omega)
  · intro i hi
    simp [StoreAt, MemoryRegion.storeU8, MemoryRegion.storeU16,
      Low16Bits, High16Bits, ite_apply] <;>
    first
    | omega
    | (split_ifs <;> omega)
  · simp [LoadAt, StoreAt, MemoryRegion.loadU8, MemoryRegion.loadU16,
      MemoryRegion.storeU8, MemoryRegion.storeU16, Low16Bits, High16Bits]
    omega

/-- Witness for C7 at value 0x0A0B0C stored at offset 10. -/
theorem width3_layout_roundtrip_witness :
    (658188 < 16777216
      ∧ StoreAt (fun _ => 1) 3 10 658188 10 = 658188 % 256
      ∧ StoreAt (fun _ => 1) 3 10 658188 11 = 658188 / 256 % 256
      ∧ StoreAt (fun _ => 1) 3 10 658188 12 = 658188 / 65536 % 256
      ∧ StoreAt (fun _ => 1) 3 10 658188 13 = 1)
    ∧ LoadAt (StoreAt (fun _ => 1) 3 10 658188) 3 10 false = 658188 :=
  ⟨⟨by norm_num,
    (width3_layout_roundtrip (fun _ => 1) 10 658188 (by norm_num)).1,
    by
      have h := (width3_layout_roundtrip (fun _ => 1) 10 658188 (by norm_num)).2.1
      simpa using h,
    by
      have h := (width3_layout_roundtrip (fun _ => 1) 10 658188 (by norm_num)).2.2.1
      simpa using h,
    by
      have h := (width3_layout_roundtrip (fun _ => 1) 10 658188
        (by norm_num)).2.2.2.1 13 (by norm_num)
      simpa using h⟩,
   (width3_layout_roundtrip (fun _ => 1) 10 658188 (by norm_num)).2.2.2.2⟩

/-- Claim C8: width 0 stores and loads nothing; LoadAt returns 0 for every
buffer and offset, sentinel checking is forbidden by the DCHECK, and
StoreAt requires value 0 and leaves the region unchanged. -/
theorem width0_stores_loads_nothing :
    (∀ (region : MemoryRegion) (offset : Nat) (check_max : Bool),
      LoadAt region 0 offset check_max = 0)
    ∧ (∀ check_max : Bool, LoadAtAsserts 0 check_max ↔ check_max = false)
    ∧ (∀ (region : MemoryRegion) (offset value : Nat),
        StoreAt region 0 offset value = region)
    ∧ (∀ value : Nat, StoreAtAsserts 0 value ↔ value = 0) := by
  refine ⟨fun _ _ _ => rfl, ?_, fun _ _ _ => rfl, ?_⟩
  · intro check_max
    cases check_max <;> simp [LoadAtAsserts]
  · intro value
    simp [StoreAtAsserts]

/-- Claim C9: for widths 1..3, StoreAt keeps only the low 8*w bits; loading
back without sentinel checking returns the value modulo 2^(8*w). -/
theorem storeAt_truncates_modulo (region : MemoryRegion) (w offset v : Nat)
    (hw1 : 1 ≤ w) (hw3 : w ≤ 3) :
    LoadAt (StoreAt region w offset v) w offset false = v % 2 ^ (8 * w) := by
  interval_cases w
  · norm_num
    simp [LoadAt, StoreAt, MemoryRegion.loadU8, MemoryRegion.storeU8]
  · norm_num
    simp [LoadAt, StoreAt, MemoryRegion.loadU8, MemoryRegion.loadU16,
      MemoryRegion.storeU8, MemoryRegion.storeU16]
    omega
  · norm_num
    simp [LoadAt, StoreAt, MemoryRegion.loadU8, MemoryRegion.loadU16,
      MemoryRegion.storeU8, MemoryRegion.storeU16, Low16Bits, High16Bits]
    omega

/-- Witness for C9 at width 1, value 1000: 1000 mod 256 = 232. -/
theorem storeAt_truncates_modulo_witness :
    ((1 ≤ 1 ∧ 1 ≤ 3)
      ∧ LoadAt (StoreAt (fun _ => 0) 1 2 1000) 1 2 false = 1000 % 2 ^ (8 * 1))
    ∧ (1000 : Nat) % 2 ^ (8 * 1) = 232 :=
  ⟨⟨⟨by norm_num, by norm_num⟩,
    storeAt_truncates_modulo (fun _ => 0) 1 2 1000 (by norm_num) (by norm_num)⟩,
   by norm_num⟩

/-- Claim C10: StoreAt modifies only the bytes in the interval from the
offset to offset + w; every byte outside it is unchanged, and for width 0
the region is entirely unchanged. -/
theorem storeAt_frame_effect (region : MemoryRegion) (w offset v : Nat) :
    (∀ i, i < offset ∨ offset + w ≤ i → StoreAt region w offset v i = region i)
    ∧ StoreAt region 0 offset v = region := by
  constructor
  · intro i hi
    simp only [StoreAt, MemoryRegion.storeU32, MemoryRegion.storeU16,
      MemoryRegion.storeU8, Low16Bits, High16Bits, ite_apply]
    first
    | omega
    | (split_ifs <;> omega)
  · rfl

/-- Witness for C10: storing 2 bytes at offset 3 leaves byte 7 unchanged. -/
theorem storeAt_frame_effect_witness :
    ((7 : Nat) < 3 ∨ 3 + 2 ≤ 7) ∧ StoreAt (fun _ => 9) 2 3 123 7 = 9 :=
  ⟨Or.inr (by norm_num),
   (storeAt_frame_effect (fun _ => 9) 2 3 123).1 7 (Or.inr (by norm_num))⟩

/-- Modelled from the spec: DexRegisterLocation::Kind (stack_map.h, outside
src): the kind of place a dex register value resides in — "in a register /
on the stack at an offset / a constant, etc.", with kNone for a dead
register. -/
inductive DexRegisterLocation.Kind where
  | kNone : DexRegisterLocation.Kind
  | kInStack : DexRegisterLocation.Kind
  | kInRegister : DexRegisterLocation.Kind
  | kInFpuRegister : DexRegisterLocation.Kind
  | kConstant : DexRegisterLocation.Kind
  deriving DecidableEq

/-- Modelled from the spec: DexRegisterLocation (stack_map.h, outside src):
a (kind, value) pair describing where a variable's value resides. -/
structure DexRegisterLocation where
  kind : DexRegisterLocation.Kind
  value : Int
  deriving DecidableEq

/-- Modelled from the spec: DexRegisterLocation::None() (stack_map.h,
outside src), the "no location" descriptor of a dead register. -/
def DexRegisterLocation.None : DexRegisterLocation :=
  ⟨DexRegisterLocation.Kind.kNone, 0⟩

/-- Modelled from the spec: the deduplicated location catalog is an
index-addressed table of distinct location descriptors; we carry its
decoded entries as a list. -/
abbrev DexRegisterLocationCatalog : Type := List DexRegisterLocation

/-- Modelled from the spec: DexRegisterLocationCatalog::kNoLocationEntryIndex
is a distinguished index meaning "no entry"; the index domain is modelled
as Option Nat with Option.none standing for kNoLocationEntryIndex, and a
lookup at that index yields DexRegisterLocation.None without reading any
catalog entry (stack_map.h DexRegisterLocationCatalog::GetDexRegisterLocation). -/
def DexRegisterLocationCatalog.GetDexRegisterLocation
    (catalog : DexRegisterLocationCatalog) (entry_index : Option Nat) :
    DexRegisterLocation :=
  match entry_index with
  | Option.none => DexRegisterLocation.None
  | Option.some i => catalog.getD i DexRegisterLocation.None

/-- Modelled from the spec: kindAt(index) of the catalog (stack_map.h
DexRegisterLocationCatalog::GetLocationInternalKind). -/
def DexRegisterLocationCatalog.GetLocationInternalKind
    (catalog : DexRegisterLocationCatalog) (entry_index : Option Nat) :
    DexRegisterLocation.Kind :=
  (DexRegisterLocationCatalog.GetDexRegisterLocation catalog entry_index).kind

/-- Modelled from the spec: the table header for one compiled method, with
the per-field byte widths, the fixed stack-mask byte size and the decoded
location catalog; the field names follow the stack_map.h accessors. -/
structure CodeInfo where
  GetStackMaskSize : Nat
  NumberOfBytesForInlineInfo : Nat
  NumberOfBytesForDexRegisterMap : Nat
  NumberOfBytesForDexPc : Nat
  NumberOfBytesForNativePc : Nat
  NumberOfBytesForRegisterMask : Nat
  GetDexRegisterLocationCatalog : DexRegisterLocationCatalog

/-- Modelled from the spec: the catalog entry count exposed by the header
(stack_map.h CodeInfo::GetNumberOfDexRegisterLocationCatalogEntries). -/
def CodeInfo.GetNumberOfDexRegisterLocationCatalogEntries
    (info : CodeInfo) : Nat :=
  info.GetDexRegisterLocationCatalog.length

/-- Modelled from the spec: hasInlineInfo() is false exactly when the
inline-info field width is 0 ("no method in the table ever uses inlining
implies inline-info width is 0 and hasInlineInfo() is false"). -/
def CodeInfo.HasInlineInfo (info : CodeInfo) : Bool :=
  info.NumberOfBytesForInlineInfo != 0

/-- Modelled from the spec: field byte offsets inside one safepoint record
follow the fixed order stack-mask bytes, inline-info-offset bytes,
variable-map-offset bytes, instruction-offset bytes, native-offset bytes,
register-mask bytes; each offset is the accumulated width of the preceding
fields. The stack mask comes first, at offset 0. -/
def CodeInfo.ComputeStackMapStackMaskOffset (_ : CodeInfo) : Nat := 0

/-- Modelled from the spec: the inline-info-offset field follows the stack
mask bytes. -/
def CodeInfo.ComputeStackMapInlineInfoOffset (info : CodeInfo) : Nat :=
  info.ComputeStackMapStackMaskOffset + info.GetStackMaskSize

/-- Modelled from the spec: the variable-map-offset field follows the
inline-info-offset bytes. -/
def CodeInfo.ComputeStackMapDexRegisterMapOffset (info : CodeInfo) : Nat :=
  info.ComputeStackMapInlineInfoOffset + info.NumberOfBytesForInlineInfo

/-- Modelled from the spec: the instruction-offset (dex pc) field follows
the variable-map-offset bytes. -/
def CodeInfo.ComputeStackMapDexPcOffset (info : CodeInfo) : Nat :=
  info.ComputeStackMapDexRegisterMapOffset + info.NumberOfBytesForDexRegisterMap

/-- Modelled from the spec: the native-offset field follows the
instruction-offset bytes. -/
def CodeInfo.ComputeStackMapNativePcOffset (info : CodeInfo) : Nat :=
  info.ComputeStackMapDexPcOffset + info.NumberOfBytesForDexPc

/-- Modelled from the spec: the register-mask field follows the
native-offset bytes. -/
def CodeInfo.ComputeStackMapRegisterMaskOffset (info : CodeInfo) : Nat :=
  info.ComputeStackMapNativePcOffset + info.NumberOfBytesForNativePc

/-- StackMap::kNoInlineInfo (declared in stack_map.h as uint32_t -1): the
sentinel meaning "this safepoint has no inline info". -/
def StackMap.kNoInlineInfo : Nat := 4294967295

/-- StackMap::kNoDexRegisterMap (declared in stack_map.h as uint32_t -1):
the sentinel meaning "this safepoint has no dex register map". -/
def StackMap.kNoDexRegisterMap : Nat := 4294967295

/-- StackMap::GetInlineDescriptorOffset (stack_map.cc lines 137-143): if
the method has no inline info at all the getter returns kNoInlineInfo
directly; otherwise it loads the field with sentinel checking. -/
def StackMap.GetInlineDescriptorOffset (info : CodeInfo)
    (region : MemoryRegion) : Nat :=
  if info.HasInlineInfo = false then
    StackMap.kNoInlineInfo
  else
    LoadAt region info.NumberOfBytesForInlineInfo
      info.ComputeStackMapInlineInfoOffset true

/-- The DCHECK-derived precondition of the getter: LoadAt is reached only
when hasInlineInfo() holds, and then its own asserts must hold. The getter
itself states no DCHECK. -/
def StackMap.GetInlineDescriptorOffsetAsserts (info : CodeInfo) : Prop :=
  info.HasInlineInfo = true →
    LoadAtAsserts info.NumberOfBytesForInlineInfo true

/-- StackMap::SetInlineDescriptorOffset (stack_map.cc lines 145-151):
stores the inline-info offset field of the record. -/
def StackMap.SetInlineDescriptorOffset (info : CodeInfo)
    (region : MemoryRegion) (offset : Nat) : MemoryRegion :=
  StoreAt region info.NumberOfBytesForInlineInfo
    info.ComputeStackMapInlineInfoOffset offset

/-- The DCHECK-derived precondition of the setter: DCHECK(info.HasInlineInfo())
plus the asserts of the StoreAt it performs. -/
def StackMap.SetInlineDescriptorOffsetAsserts (info : CodeInfo)
    (offset : Nat) : Prop :=
  info.HasInlineInfo = true
  ∧ StoreAtAsserts info.NumberOfBytesForInlineInfo offset

/-- A header for a method without any inlining: every width 0, empty
catalog. -/
def infoNoInline : CodeInfo := ⟨0, 0, 0, 0, 0, 0, []⟩

/-- Claim C3 counterexample: with inline-info width 0 the getter does not
fail any precondition; it is well defined and returns the kNoInlineInfo
sentinel, contradicting the claim that both getter and setter fail their
precondition. -/
theorem getInlineDescriptorOffset_no_precondition_failure :
    infoNoInline.HasInlineInfo = false
    ∧ StackMap.GetInlineDescriptorOffsetAsserts infoNoInline
    ∧ StackMap.GetInlineDescriptorOffset infoNoInline (fun _ => 0)
        = StackMap.kNoInlineInfo := by
  refine ⟨rfl, ?_, rfl⟩
  intro h
  simp [infoNoInline, CodeInfo.HasInlineInfo] at h

/-- Claim C3 (amended): when the method has no inlining at all the setter
fails its DCHECK precondition, while the getter has no failing
precondition and returns the kNoInlineInfo sentinel without reading the
record; callers must check hasInlineInfo() before calling the setter. -/
theorem inlineDescriptorOffset_accessors_no_inlining (info : CodeInfo)
    (region : MemoryRegion) (offset : Nat)
    (h : info.HasInlineInfo = false) :
    ¬ StackMap.SetInlineDescriptorOffsetAsserts info offset
    ∧ StackMap.GetInlineDescriptorOffsetAsserts info
    ∧ StackMap.GetInlineDescriptorOffset info region
        = StackMap.kNoInlineInfo := by
  refine ⟨?_, ?_, ?_⟩
  · rintro ⟨h1, -⟩
    rw [h] at h1
    exact Bool.noConfusion h1
  · intro h1
    rw [h] at h1
    exact Bool.noConfusion h1
  · simp [StackMap.GetInlineDescriptorOffset, h]

/-- Witness for the amended C3 at the all-zero-width header. -/
theorem inlineDescriptorOffset_accessors_no_inlining_witness :
    infoNoInline.HasInlineInfo = false
    ∧ (¬ StackMap.SetInlineDescriptorOffsetAsserts infoNoInline 0
      ∧ StackMap.GetInlineDescriptorOffsetAsserts infoNoInline
      ∧ StackMap.GetInlineDescriptorOffset infoNoInline (fun _ => 0)
          = StackMap.kNoInlineInfo) :=
  ⟨rfl, inlineDescriptorOffset_accessors_no_inlining infoNoInline
    (fun _ => 0) 0 rfl⟩

/-- Modelled from the spec: a variable map is a live-bit bitmap (one bit
per variable, by variable number) followed by one catalog-index field per
live variable only, in ascending variable-number order; we carry the
liveness bitmap and the sequence of stored catalog-index fields, indexed
by ordinal position among the stored fields. -/
structure DexRegisterMap where
  live : Nat → Bool
  storedEntry : Nat → Nat

/-- Modelled from the spec: isLive(variableNumber), the live bit of one
variable (stack_map.h DexRegisterMap::IsDexRegisterLive). -/
def DexRegisterMap.IsDexRegisterLive (m : DexRegisterMap)
    (dex_register_number : Nat) : Bool :=
  m.live dex_register_number

/-- Modelled from the spec: catalogIndexFor scans the live-bit bitmap from
variable 0 and counts how many live bits precede the variable — that count
is the ordinal position of the stored catalog-index field, since dead
variables store nothing; a dead variable yields kNoLocationEntryIndex
(stack_map.h DexRegisterMap::GetLocationCatalogEntryIndex). -/
def DexRegisterMap.GetLocationCatalogEntryIndex (m : DexRegisterMap)
    (dex_register_number : Nat) (number_of_dex_registers : Nat)
    (number_of_location_catalog_entries : Nat) : Option Nat :=
  if m.IsDexRegisterLive dex_register_number = false then
    Option.none
  else
    Option.some (m.storedEntry ((List.range dex_register_number).countP m.live))

/-- DexRegisterMap::GetLocationInternalKind (stack_map.cc lines 29-39):
fetches the catalog, resolves the entry index of the variable, and asks
the catalog for the kind at that index. -/
def DexRegisterMap.GetLocationInternalKind (m : DexRegisterMap)
    (dex_register_number number_of_dex_registers : Nat)
    (code_info : CodeInfo) : DexRegisterLocation.Kind :=
  let dex_register_location_catalog := code_info.GetDexRegisterLocationCatalog
  let location_catalog_entry_index := m.GetLocationCatalogEntryIndex
    dex_register_number number_of_dex_registers
    code_info.GetNumberOfDexRegisterLocationCatalogEntries
  DexRegisterLocationCatalog.GetLocationInternalKind
    dex_register_location_catalog location_catalog_entry_index

/-- DexRegisterMap::GetDexRegisterLocation (stack_map.cc lines 41-51):
fetches the catalog, resolves the entry index of the variable, and asks
the catalog for the location at that index. -/
def DexRegisterMap.GetDexRegisterLocation (m : DexRegisterMap)
    (dex_register_number number_of_dex_registers : Nat)
    (code_info : CodeInfo) : DexRegisterLocation :=
  let dex_register_location_catalog := code_info.GetDexRegisterLocationCatalog
  let location_catalog_entry_index := m.GetLocationCatalogEntryIndex
    dex_register_number number_of_dex_registers
    code_info.GetNumberOfDexRegisterLocationCatalogEntries
  DexRegisterLocationCatalog.GetDexRegisterLocation
    dex_register_location_catalog location_catalog_entry_index

/-- Claim C4: a dead variable resolves to "no location" (and kind kNone)
directly, and the result does not depend on the catalog at all — the same
lookup against any other header with any other catalog gives the same
answer. -/
theorem getDexRegisterLocation_dead_register (m : DexRegisterMap)
    (n number_of_dex_registers : Nat) (info info2 : CodeInfo)
    (hdead : m.IsDexRegisterLive n = false) :
    m.GetDexRegisterLocation n number_of_dex_registers info
      = DexRegisterLocation.None
    ∧ m.GetLocationInternalKind n number_of_dex_registers info
      = DexRegisterLocation.Kind.kNone
    ∧ m.GetDexRegisterLocation n number_of_dex_registers info
      = m.GetDexRegisterLocation n number_of_dex_registers info2 := by
  refine ⟨?_, ?_, ?_⟩ <;>
    simp [DexRegisterMap.GetDexRegisterLocation,
      DexRegisterMap.GetLocationInternalKind,
      DexRegisterMap.GetLocationCatalogEntryIndex, hdead,
      DexRegisterLocationCatalog.GetDexRegisterLocation,
      DexRegisterLocationCatalog.GetLocationInternalKind,
      DexRegisterLocation.None]

/-- Witness for C4: variable 1 dead in an all-dead map, against a header
with a one-entry catalog and one with an empty catalog. -/
theorem getDexRegisterLocation_dead_register_witness :
    DexRegisterMap.IsDexRegisterLive ⟨fun _ => false, fun _ => 0⟩ 1 = false
    ∧ DexRegisterMap.GetDexRegisterLocation ⟨fun _ => false, fun _ => 0⟩ 1 8
        ⟨0, 0, 1, 1, 1, 1, [⟨DexRegisterLocation.Kind.kInRegister, 5⟩]⟩
        = DexRegisterLocation.None :=
  ⟨rfl,
   (getDexRegisterLocation_dead_register ⟨fun _ => false, fun _ => 0⟩ 1 8
      ⟨0, 0, 1, 1, 1, 1, [⟨DexRegisterLocation.Kind.kInRegister, 5⟩]⟩
      infoNoInline rfl).1⟩

/-- Modelled from the spec: CodeInfo::EncodingSizeInBytes (stack_map.h,
outside src): the smallest width in 0..4 bytes whose representable range
covers the given maximum value; 0 only when the maximum is 0. -/
def CodeInfo.EncodingSizeInBytes (max_element : Nat) : Nat :=
  if max_element = 0 then 0
  else if max_element < 256 then 1
  else if max_element < 65536 then 2
  else if max_element < 16777216 then 3
  else 4

/-- StackMap::ComputeStackMapSizeInternal (stack_map.cc lines 166-178):
the record size is the plain sum of the six per-field byte widths. -/
def StackMap.ComputeStackMapSizeInternal (stack_mask_size : Nat)
    (number_of_bytes_for_inline_info : Nat)
    (number_of_bytes_for_dex_map : Nat)
    (number_of_bytes_for_dex_pc : Nat)
    (number_of_bytes_for_native_pc : Nat)
    (number_of_bytes_for_register_mask : Nat) : Nat :=
  stack_mask_size
    + number_of_bytes_for_inline_info
    + number_of_bytes_for_dex_map
    + number_of_bytes_for_dex_pc
    + number_of_bytes_for_native_pc
    + number_of_bytes_for_register_mask

/-- StackMap::ComputeStackMapSize (stack_map.cc lines 180-197): chooses
the field widths from the whole-table maxima; the dex-map-offset field is
sized from its maximum plus 1 (to also encode kNoDexRegisterMap) and the
inline-info-offset field, when inlining is present, from
inline_info_size + dex_register_map_size + 1 (to also encode
kNoInlineInfo). -/
def StackMap.ComputeStackMapSize (stack_mask_size : Nat)
    (inline_info_size : Nat) (dex_register_map_size : Nat)
    (dex_pc_max : Nat) (native_pc_max : Nat)
    (register_mask_max : Nat) : Nat :=
  StackMap.ComputeStackMapSizeInternal
    stack_mask_size
    (if inline_info_size = 0 then 0
     else CodeInfo.EncodingSizeInBytes
       (inline_info_size + dex_register_map_size + 1))
    (CodeInfo.EncodingSizeInBytes (dex_register_map_size + 1))
    (CodeInfo.EncodingSizeInBytes dex_pc_max)
    (CodeInfo.EncodingSizeInBytes native_pc_max)
    (CodeInfo.EncodingSizeInBytes register_mask_max)

/-- A field sized by EncodingSizeInBytes from max + 1 never lets max
collide with the all-ones sentinel pattern of the chosen width. -/
theorem encodingSizeInBytes_reserves_sentinel (m : Nat)
    (h : m + 1 < 4294967296) :
    m < 2 ^ (8 * CodeInfo.EncodingSizeInBytes (m + 1)) - 1 := by
  by_cases h1 : m + 1 < 256
  · have e : CodeInfo.EncodingSizeInBytes (m + 1) = 1 := by
      simp [CodeInfo.EncodingSizeInBytes, h1]
    rw [e]
    norm_num
    omega
  · by_cases h2 : m + 1 < 65536
    · have e : CodeInfo.EncodingSizeInBytes (m + 1) = 2 := by
        simp [CodeInfo.EncodingSizeInBytes, h1, h2]
      rw [e]
      norm_num
      omega
    · by_cases h3 : m + 1 < 16777216
      · have e : CodeInfo.EncodingSizeInBytes (m + 1) = 3 := by
          simp [CodeInfo.EncodingSizeInBytes, h1, h2, h3]
        rw [e]
        norm_num
        omega
      · have e : CodeInfo.EncodingSizeInBytes (m + 1) = 4 := by
          simp [CodeInfo.EncodingSizeInBytes, h1, h2, h3]
        rw [e]
        norm_num
        omega

/-- Claim C5: ComputeStackMapSize sizes the variable-map-offset field from
its maximum plus 1 and the inline-info-offset field from its maximum plus
1 when inlining is present, so neither field's true data maximum can ever
collide with the reserved all-ones sentinel of the chosen width. -/
theorem computeStackMapSize_sentinel_reserved (stack_mask_size : Nat)
    (inline_info_size dex_register_map_size : Nat)
    (dex_pc_max native_pc_max register_mask_max : Nat)
    (h1 : dex_register_map_size + 1 < 4294967296)
    (h2 : inline_info_size + dex_register_map_size + 1 < 4294967296) :
    StackMap.ComputeStackMapSize stack_mask_size inline_info_size
        dex_register_map_size dex_pc_max native_pc_max register_mask_max
      = stack_mask_size
        + (if inline_info_size = 0 then 0
           else CodeInfo.EncodingSizeInBytes
             (inline_info_size + dex_register_map_size + 1))
        + CodeInfo.EncodingSizeInBytes (dex_register_map_size + 1)
        + CodeInfo.EncodingSizeInBytes dex_pc_max
        + CodeInfo.EncodingSizeInBytes native_pc_max
        + CodeInfo.EncodingSizeInBytes register_mask_max
    ∧ dex_register_map_size
        < 2 ^ (8 * CodeInfo.EncodingSizeInBytes (dex_register_map_size + 1)) - 1
    ∧ (inline_info_size ≠ 0 →
        inline_info_size + dex_register_map_size
          < 2 ^ (8 * CodeInfo.EncodingSizeInBytes
              (inline_info_size + dex_register_map_size + 1)) - 1) :=
  ⟨rfl, encodingSizeInBytes_reserves_sentinel dex_register_map_size h1,
   fun _ => encodingSizeInBytes_reserves_sentinel
     (inline_info_size + dex_register_map_size) h2⟩

/-- Witness for C5 with a 254-byte dex register map and a 10-byte inline
info block: both sentinel-bearing fields stay clear of their sentinel. -/
theorem computeStackMapSize_sentinel_reserved_witness :
    (254 + 1 < 4294967296 ∧ 10 + 254 + 1 < 4294967296)
    ∧ (10 : Nat) + 254
        < 2 ^ (8 * CodeInfo.EncodingSizeInBytes (10 + 254 + 1)) - 1 :=
  ⟨⟨by norm_num, by norm_num⟩,
   (computeStackMapSize_sentinel_reserved 2 10 254 5 1000 0
      (by norm_num) (by norm_num)).2.2 (by norm_num)⟩

/-- Modelled from the spec: CodeInfo::StackMapSize (stack_map.h, outside
src) is ComputeStackMapSizeInternal applied to this table's header
widths. -/
def CodeInfo.StackMapSize (info : CodeInfo) : Nat :=
  StackMap.ComputeStackMapSizeInternal
    info.GetStackMaskSize
    info.NumberOfBytesForInlineInfo
    info.NumberOfBytesForDexRegisterMap
    info.NumberOfBytesForDexPc
    info.NumberOfBytesForNativePc
    info.NumberOfBytesForRegisterMask

/-- A zero-copy view into the table buffer: a byte offset and a length. -/
structure MemoryRegionView where
  start : Nat
  size : Nat
  deriving DecidableEq

/-- Modelled from the spec: CodeInfo::GetStackMapAt (stack_map.h, outside
src): safepoint record i is the fixed-size subregion at
tableStart + i * recordSize of length recordSize. -/
def CodeInfo.GetStackMapAt (info : CodeInfo) (table_start i : Nat) :
    MemoryRegionView :=
  ⟨table_start + i * info.StackMapSize, info.StackMapSize⟩

/-- Claim C6: every safepoint record's size is exactly the sum of the six
per-field byte widths of the header, all records of one table have
identical length, record i starts at tableStart + i * recordSize, and
consecutive records are laid out back-to-back. -/
theorem stackMap_records_fixed_size (info : CodeInfo)
    (table_start i j : Nat) :
    (info.GetStackMapAt table_start i).size
      = info.GetStackMaskSize + info.NumberOfBytesForInlineInfo
        + info.NumberOfBytesForDexRegisterMap + info.NumberOfBytesForDexPc
        + info.NumberOfBytesForNativePc + info.NumberOfBytesForRegisterMask
    ∧ (info.GetStackMapAt table_start i).size
      = (info.GetStackMapAt table_start j).size
    ∧ (info.GetStackMapAt table_start i).start
      = table_start + i * (info.GetStackMapAt table_start i).size
    ∧ (info.GetStackMapAt table_start (i + 1)).start
      = (info.GetStackMapAt table_start i).start
        + (info.GetStackMapAt table_start i).size := by
  refine ⟨rfl, rfl, rfl, ?_⟩
  simp [CodeInfo.GetStackMapAt]
  ring

/-- Witness for C6 at a concrete header: record size 1+2+3+4+5+6 = 21 and
record 2 of a table starting at byte 100 starts at byte 142. -/
theorem stackMap_records_fixed_size_witness :
    (CodeInfo.GetStackMapAt ⟨1, 2, 3, 4, 5, 6, []⟩ 100 2).size = 21
    ∧ (CodeInfo.GetStackMapAt ⟨1, 2, 3, 4, 5, 6, []⟩ 100 2).start = 142 :=
  ⟨(stackMap_records_fixed_size ⟨1, 2, 3, 4, 5, 6, []⟩ 100 2 0).1, rfl⟩

/-- Witness for C8 at a concrete buffer: a width-0 load yields 0 and a
width-0 store of 0 changes nothing. -/
theorem width0_stores_loads_nothing_witness :
    LoadAt (fun _ => 3) 0 7 false = 0
    ∧ StoreAt (fun _ => 3) 0 7 0 9 = 3 :=
  ⟨width0_stores_loads_nothing.1 (fun _ => 3) 7 false,
   congrFun (width0_stores_loads_nothing.2.2.1 (fun _ => 3) 7 0) 9⟩

end ArtStackMap
